import Mathlib

/-!
Shallow embedding of the paper-trading engine (src-tauri/src/engine) for
specification checking.  Rust `f64` money/price values are modelled as `ℚ`,
`i64`/`i32` quantities as `ℤ`, Unix timestamps as `ℤ`.  Maps
(`std::collections::HashMap`) are modelled as association lists with
key-based lookup/insert/erase; where the Rust code iterates a `HashMap`
(whose iteration order is unspecified), the enumeration is an explicit
parameter constrained to be a permutation of the stored entries.
Ambient effects (wall-clock `Utc::now()`, `Uuid::new_v4()`, draws from
`rand::thread_rng()`) are passed as explicit arguments.
-/

/-- Association-list lookup, modelling `HashMap::get`. -/
def alGet {α : Type} (l : List (String × α)) (k : String) : Option α :=
  (l.find? (fun p => p.1 == k)).map (fun p => p.2)

/-- Association-list insert, modelling `HashMap::insert` (replaces an
existing binding, otherwise appends). -/
def alInsert {α : Type} (l : List (String × α)) (k : String) (v : α) :
    List (String × α) :=
  if (l.find? (fun p => p.1 == k)).isSome then
    l.map (fun p => if p.1 == k then (k, v) else p)
  else
    l ++ [(k, v)]

/-- Association-list erase, modelling `HashMap::remove` (value dropped). -/
def alErase {α : Type} (l : List (String × α)) (k : String) :
    List (String × α) :=
  l.filter (fun p => p.1 != k)

/-- Truncation toward zero, the semantics of Rust `as i64` on `f64`. -/
def qTrunc (q : ℚ) : ℤ :=
  if 0 ≤ q then ⌊q⌋ else ⌈q⌉

/-! ## types.rs -/

/-- `OrderType` from types.rs. -/
inductive OrderType
  | Market
  | Limit
  | Stop
  | StopLimit
deriving DecidableEq, Repr

/-- `OrderSide` from types.rs. -/
inductive OrderSide
  | Buy
  | Sell
deriving DecidableEq, Repr

/-- `InstrumentType` from types.rs. -/
inductive InstrumentType
  | Stock
  | Option
deriving DecidableEq, Repr

/-- `OptionType` from types.rs. -/
inductive OptionType
  | Call
  | Put
deriving DecidableEq, Repr

/-- `OptionDetails` from types.rs. -/
structure OptionDetails where
  underlying : String
  option_type : OptionType
  strike : ℚ
  expiry : String
  multiplier : ℤ
deriving DecidableEq, Repr

/-- `TimeInForce` from types.rs. -/
inductive TimeInForce
  | Day
  | GTC
  | IOC
  | FOK
deriving DecidableEq, Repr

/-- `OrderStatus` from types.rs. -/
inductive OrderStatus
  | Pending
  | PartiallyFilled
  | Filled
  | Canceled
  | Rejected
  | Expired
deriving DecidableEq, Repr

/-- `OrderRequest` from types.rs. -/
structure OrderRequest where
  symbol : String
  side : OrderSide
  order_type : OrderType
  quantity : ℤ
  price : Option ℚ
  stop_price : Option ℚ
  time_in_force : TimeInForce
  client_order_id : Option String
  instrument_type : InstrumentType
  option_details : Option OptionDetails
deriving DecidableEq, Repr

/-- `Fill` from types.rs. -/
structure Fill where
  id : String
  order_id : String
  symbol : String
  side : OrderSide
  quantity : ℤ
  price : ℚ
  timestamp : ℤ
  commission : ℚ
  instrument_type : InstrumentType
  option_details : Option OptionDetails
  leg_number : Option ℤ
deriving DecidableEq, Repr

/-- `Order` from types.rs. -/
structure Order where
  id : String
  client_order_id : Option String
  symbol : String
  side : OrderSide
  order_type : OrderType
  quantity : ℤ
  filled_quantity : ℤ
  remaining_quantity : ℤ
  price : Option ℚ
  stop_price : Option ℚ
  time_in_force : TimeInForce
  status : OrderStatus
  created_at : ℤ
  updated_at : ℤ
  fills : List Fill
  instrument_type : InstrumentType
  option_details : Option OptionDetails
deriving DecidableEq, Repr

/-- `Position` from types.rs. -/
structure Position where
  symbol : String
  quantity : ℤ
  avg_cost : ℚ
  market_value : ℚ
  unrealized_pnl : ℚ
  realized_pnl : ℚ
  last_price : ℚ
  updated_at : ℤ
deriving DecidableEq, Repr

/-- `Trade` from types.rs. -/
structure Trade where
  id : String
  symbol : String
  side : OrderSide
  quantity : ℤ
  price : ℚ
  timestamp : ℤ
  order_id : String
  commission : ℚ
  net_amount : ℚ
  instrument_type : InstrumentType
  option_details : Option OptionDetails
  leg_number : Option ℤ
  assignment_id : Option String
deriving DecidableEq, Repr

/-- `MarketData` from types.rs. -/
structure MarketData where
  symbol : String
  last_price : ℚ
  bid : Option ℚ
  ask : Option ℚ
  bid_size : Option ℤ
  ask_size : Option ℤ
  volume : Option ℤ
  timestamp : ℤ
deriving DecidableEq, Repr

/-- `BrokerConfig` from types.rs.  The Rust fields
`partial_fill_probability` / `min_partial_fill_ratio` are spelled
`pfill_probability` / `min_pfill_ratio` here. -/
structure BrokerConfig where
  commission_per_share : ℚ
  commission_per_trade : ℚ
  min_commission : ℚ
  max_commission : ℚ
  option_commission_per_contract : ℚ
  option_commission_per_trade : ℚ
  option_min_commission : ℚ
  option_max_commission : ℚ
  assignment_fee : ℚ
  exercise_fee : ℚ
  slippage_bps : ℚ
  pfill_probability : ℚ
  min_pfill_ratio : ℚ
  auto_close_dte_threshold : ℤ
  itm_assignment_threshold : ℚ
deriving DecidableEq, Repr

/-- `BrokerConfig::default()` from types.rs. -/
def BrokerConfig.default : BrokerConfig where
  commission_per_share := 0.005
  commission_per_trade := 0.0
  min_commission := 1.0
  max_commission := 10.0
  option_commission_per_contract := 0.65
  option_commission_per_trade := 0.0
  option_min_commission := 1.0
  option_max_commission := 50.0
  assignment_fee := 19.99
  exercise_fee := 19.99
  slippage_bps := 5.0
  pfill_probability := 0.1
  min_pfill_ratio := 0.3
  auto_close_dte_threshold := 0
  itm_assignment_threshold := 0.01

/-- `TradeExecution` from types.rs. -/
structure TradeExecution where
  order_id : String
  fills : List Fill
  status : OrderStatus
  message : String
deriving DecidableEq, Repr

/-- `OrderRequest::validate` from types.rs. -/
def OrderRequest.validate (r : OrderRequest) : Except String Unit :=
  if r.symbol.isEmpty then
    .error "Symbol cannot be empty"
  else if r.quantity ≤ 0 then
    .error "Quantity must be positive"
  else
    match r.order_type with
    | .Limit =>
        match r.price with
        | none => .error "Limit orders require a price"
        | some price =>
            if price ≤ 0 then .error "Price must be positive" else .ok ()
    | .Stop =>
        match r.stop_price with
        | none => .error "Stop orders require a stop price"
        | some sp =>
            if sp ≤ 0 then .error "Stop price must be positive" else .ok ()
    | .StopLimit =>
        match r.price, r.stop_price with
        | some price, some sp =>
            if price ≤ 0 ∨ sp ≤ 0 then
              .error "Price and stop price must be positive"
            else .ok ()
        | _, _ => .error "Stop limit orders require both price and stop price"
    | .Market => .ok ()

/-- `Order::new` from types.rs; `now` models `Utc::now().timestamp()`. -/
def Order.new (request : OrderRequest) (id : String) (now : ℤ) : Order where
  id := id
  client_order_id := request.client_order_id
  symbol := request.symbol
  side := request.side
  order_type := request.order_type
  quantity := request.quantity
  filled_quantity := 0
  remaining_quantity := request.quantity
  price := request.price
  stop_price := request.stop_price
  time_in_force := request.time_in_force
  status := .Pending
  created_at := now
  updated_at := now
  fills := []
  instrument_type := request.instrument_type
  option_details := request.option_details

/-- `Order::is_complete` from types.rs. -/
def Order.is_complete (o : Order) : Bool :=
  o.status == .Filled || o.status == .Canceled || o.status == .Rejected ||
    o.status == .Expired

/-- `Order::can_fill` from types.rs. -/
def Order.can_fill (o : Order) : Bool :=
  (o.status == .Pending || o.status == .PartiallyFilled) &&
    o.remaining_quantity > 0

/-- `Order::add_fill` from types.rs; `now` models `Utc::now().timestamp()`. -/
def Order.add_fill (o : Order) (fill : Fill) (now : ℤ) : Order :=
  let filled := o.filled_quantity + fill.quantity
  let remaining := o.quantity - filled
  { o with
    filled_quantity := filled
    remaining_quantity := remaining
    fills := o.fills ++ [fill]
    updated_at := now
    status :=
      if remaining = 0 then .Filled
      else if filled > 0 then .PartiallyFilled
      else o.status }

/-- `Position::new` from types.rs; `now` models `Utc::now().timestamp()`. -/
def Position.new (symbol : String) (now : ℤ) : Position where
  symbol := symbol
  quantity := 0
  avg_cost := 0
  market_value := 0
  unrealized_pnl := 0
  realized_pnl := 0
  last_price := 0
  updated_at := now

/-- `Position::update_market_data` from types.rs. -/
def Position.update_market_data (p : Position) (price : ℚ) (now : ℤ) :
    Position :=
  { p with
    last_price := price
    market_value := (p.quantity : ℚ) * price
    unrealized_pnl := (p.quantity : ℚ) * price - (p.quantity : ℚ) * p.avg_cost
    updated_at := now }

/-- `Position::apply_fill` from types.rs.  Returns the updated position and
the realized P&L delta that the Rust method returns. -/
def Position.apply_fill (p : Position) (fill : Fill) (now : ℤ) :
    Position × ℚ :=
  let old_quantity := p.quantity
  let fill_quantity : ℤ :=
    match fill.side with
    | .Buy => fill.quantity
    | .Sell => -fill.quantity
  let new_quantity := old_quantity + fill_quantity
  let (p1, realized) :=
    if old_quantity = 0 then
      ({ p with quantity := new_quantity, avg_cost := fill.price }, (0 : ℚ))
    else if (old_quantity > 0 ∧ fill_quantity > 0) ∨
        (old_quantity < 0 ∧ fill_quantity < 0) then
      let total_cost := (old_quantity : ℚ) * p.avg_cost +
        (fill_quantity : ℚ) * fill.price
      ({ p with
          quantity := new_quantity
          avg_cost := total_cost / (new_quantity : ℚ) }, (0 : ℚ))
    else
      let closed_quantity := min |fill_quantity| |old_quantity|
      let realized_pnl := (closed_quantity : ℚ) * (fill.price - p.avg_cost) *
        (if old_quantity > 0 then 1 else -1)
      let p' := { p with
                  quantity := new_quantity
                  realized_pnl := p.realized_pnl + realized_pnl }
      (if p'.quantity = 0 then { p' with avg_cost := 0 } else p', realized_pnl)
  (p1.update_market_data fill.price now, realized)

/-! ## mtm.rs (the fragment the risk checks consume) -/

/-- `PortfolioGreeks` from mtm.rs.  The Black–Scholes computation that
produces these values is not embedded; theorems about `place_order`
quantify over the snapshot value handed to the risk check. -/
structure PortfolioGreeks where
  delta : ℚ
  gamma : ℚ
  theta : ℚ
  vega : ℚ
  rho : ℚ
deriving DecidableEq, Repr

/-! ## risk.rs -/

/-- `RiskLimits` from risk.rs. -/
structure RiskLimits where
  max_daily_loss : ℚ
  max_daily_trades : ℤ
  max_daily_volume : ℚ
  max_trade_size : ℚ
  max_position_size : ℚ
  max_portfolio_concentration : ℚ
  max_option_delta : ℚ
  max_option_gamma : ℚ
  max_option_vega : ℚ
  max_contracts_per_trade : ℤ
  circuit_breaker_loss_pct : ℚ
  circuit_breaker_duration_minutes : ℤ
  max_consecutive_losses : ℤ
deriving DecidableEq, Repr

/-- `RiskLimits::default()` from risk.rs. -/
def RiskLimits.default : RiskLimits where
  max_daily_loss := 5000.0
  max_daily_trades := 50
  max_daily_volume := 50000.0
  max_trade_size := 10000.0
  max_position_size := 20000.0
  max_portfolio_concentration := 0.25
  max_option_delta := 500.0
  max_option_gamma := 100.0
  max_option_vega := 1000.0
  max_contracts_per_trade := 50
  circuit_breaker_loss_pct := 0.10
  circuit_breaker_duration_minutes := 60
  max_consecutive_losses := 5

/-- `RiskMetrics` from risk.rs. -/
structure RiskMetrics where
  daily_pnl : ℚ
  daily_trades : ℤ
  daily_volume : ℚ
  consecutive_losses : ℤ
  largest_position_pct : ℚ
  portfolio_delta : ℚ
  portfolio_gamma : ℚ
  portfolio_vega : ℚ
  circuit_breaker_active : Bool
  circuit_breaker_until : Option ℤ
  last_updated : ℤ
deriving DecidableEq, Repr

/-- `RiskViolationType` from risk.rs. -/
inductive RiskViolationType
  | DailyLossLimit
  | DailyTradeLimit
  | DailyVolumeLimit
  | TradeSizeLimit
  | PositionSizeLimit
  | ConcentrationLimit
  | DeltaLimit
  | GammaLimit
  | VegaLimit
  | ContractLimit
  | CircuitBreaker
  | ConsecutiveLossLimit
deriving DecidableEq, Repr

/-- `RiskSeverity` from risk.rs. -/
inductive RiskSeverity
  | Warning
  | Error
  | Critical
deriving DecidableEq, Repr

/-- `RiskViolation` from risk.rs.  The Rust `message` strings interpolate
numeric values with `format!`; the embedding keeps a fixed descriptive
message per violation type (no claim inspects the message text). -/
structure RiskViolation where
  violation_type : RiskViolationType
  message : String
  current_value : ℚ
  limit_value : ℚ
  timestamp : ℤ
  severity : RiskSeverity
deriving DecidableEq, Repr

/-- `RiskCheckResult` from risk.rs. -/
structure RiskCheckResult where
  allowed : Bool
  violations : List RiskViolation
  warnings : List RiskViolation
deriving DecidableEq, Repr

/-- `RiskEngine` from risk.rs. -/
structure RiskEngine where
  limits : RiskLimits
  metrics : RiskMetrics
  daily_trades : List String
  recent_trades : List (ℤ × ℚ)
deriving DecidableEq, Repr

/-- `RiskEngine::new` from risk.rs; `now` models `Utc::now().timestamp()`. -/
def RiskEngine.new (limits : RiskLimits) (now : ℤ) : RiskEngine where
  limits := limits
  metrics :=
    { daily_pnl := 0
      daily_trades := 0
      daily_volume := 0
      consecutive_losses := 0
      largest_position_pct := 0
      portfolio_delta := 0
      portfolio_gamma := 0
      portfolio_vega := 0
      circuit_breaker_active := false
      circuit_breaker_until := none
      last_updated := now }
  daily_trades := []
  recent_trades := []

/-- `RiskEngine::is_circuit_breaker_active` from risk.rs. -/
def RiskEngine.is_circuit_breaker_active (re : RiskEngine) (now : ℤ) : Bool :=
  if !re.metrics.circuit_breaker_active then false
  else match re.metrics.circuit_breaker_until with
    | some until_ts => decide (now < until_ts)
    | none => false

/-- Helper building a `RiskViolation` record. -/
def mkViolation (t : RiskViolationType) (msg : String) (cur lim : ℚ)
    (now : ℤ) (sev : RiskSeverity) : RiskViolation :=
  { violation_type := t, message := msg, current_value := cur,
    limit_value := lim, timestamp := now, severity := sev }

/-- `RiskEngine::check_order_risk` from risk.rs.  The Rust method takes
`&mut self` but never writes to `self`; the embedding is a pure function.
`now` models `Utc::now().timestamp()`. -/
def RiskEngine.check_order_risk (re : RiskEngine) (now : ℤ)
    (order : OrderRequest) (portfolio_equity : ℚ)
    (positions : List (String × Position))
    (portfolio_greeks : Option PortfolioGreeks) : RiskCheckResult :=
  if re.is_circuit_breaker_active now then
    { allowed := false
      violations := [mkViolation .CircuitBreaker
        "Trading halted due to circuit breaker" 0 0 now .Critical]
      warnings := [] }
  else
    let estimated_price := order.price.getD 100.0
    let trade_value := estimated_price * (order.quantity : ℚ)
    let v_trade_size :=
      if trade_value > re.limits.max_trade_size then
        [mkViolation .TradeSizeLimit "Trade size exceeds limit"
          trade_value re.limits.max_trade_size now .Error]
      else []
    let v_daily_trades :=
      if re.metrics.daily_trades ≥ re.limits.max_daily_trades then
        [mkViolation .DailyTradeLimit "Daily trade limit reached"
          (re.metrics.daily_trades : ℚ) (re.limits.max_daily_trades : ℚ)
          now .Error]
      else []
    let new_daily_volume := re.metrics.daily_volume + trade_value
    let v_daily_volume :=
      if new_daily_volume > re.limits.max_daily_volume then
        [mkViolation .DailyVolumeLimit "Daily volume would exceed limit"
          new_daily_volume re.limits.max_daily_volume now .Error]
      else []
    let v_position :=
      match alGet positions order.symbol with
      | some position =>
          let new_position_value :=
            ((position.quantity : ℚ) +
              (match order.side with
               | .Buy => (order.quantity : ℚ)
               | .Sell => -(order.quantity : ℚ))) * estimated_price
          let a :=
            if |new_position_value| > re.limits.max_position_size then
              [mkViolation .PositionSizeLimit
                "Position size would exceed limit" |new_position_value|
                re.limits.max_position_size now .Error]
            else []
          let concentration := |new_position_value| / portfolio_equity
          let b :=
            if concentration > re.limits.max_portfolio_concentration then
              [mkViolation .ConcentrationLimit
                "Position concentration would exceed limit" concentration
                re.limits.max_portfolio_concentration now .Error]
            else []
          a ++ b
      | none => []
    let v_options :=
      if order.instrument_type = .Option then
        (if order.quantity > re.limits.max_contracts_per_trade then
          [mkViolation .ContractLimit "Contract quantity exceeds limit"
            (order.quantity : ℚ) (re.limits.max_contracts_per_trade : ℚ)
            now .Error]
         else []) ++
        (match portfolio_greeks with
         | some greeks =>
            (if |greeks.delta| > re.limits.max_option_delta then
              [mkViolation .DeltaLimit "Portfolio delta exceeds limit"
                |greeks.delta| re.limits.max_option_delta now .Error]
             else []) ++
            (if |greeks.gamma| > re.limits.max_option_gamma then
              [mkViolation .GammaLimit "Portfolio gamma exceeds limit"
                |greeks.gamma| re.limits.max_option_gamma now .Error]
             else []) ++
            (if |greeks.vega| > re.limits.max_option_vega then
              [mkViolation .VegaLimit "Portfolio vega exceeds limit"
                |greeks.vega| re.limits.max_option_vega now .Error]
             else [])
         | none => [])
      else []
    let v_daily_loss :=
      if re.metrics.daily_pnl < -re.limits.max_daily_loss then
        [mkViolation .DailyLossLimit "Daily loss exceeds limit"
          (-re.metrics.daily_pnl) re.limits.max_daily_loss now .Error]
      else []
    let v_consecutive :=
      if re.metrics.consecutive_losses ≥ re.limits.max_consecutive_losses then
        [mkViolation .ConsecutiveLossLimit "Consecutive losses reached limit"
          (re.metrics.consecutive_losses : ℚ)
          (re.limits.max_consecutive_losses : ℚ) now .Error]
      else []
    let violations := v_trade_size ++ v_daily_trades ++ v_daily_volume ++
      v_position ++ v_options ++ v_daily_loss ++ v_consecutive
    let warnings :=
      if trade_value > re.limits.max_trade_size * 0.8 then
        [mkViolation .TradeSizeLimit "Trade size approaching limit"
          trade_value re.limits.max_trade_size now .Warning]
      else []
    { allowed := violations.isEmpty, violations := violations,
      warnings := warnings }

/-- `RiskEngine::update_consecutive_losses` from risk.rs.
`now` models `Utc::now().timestamp()` used for the 24h cutoff. -/
def RiskEngine.update_consecutive_losses (re : RiskEngine) (now : ℤ) :
    RiskEngine :=
  let cutoff := now - 86400
  let recent := re.recent_trades.filter (fun p => p.1 > cutoff)
  let consecutive : ℤ :=
    ((recent.reverse.takeWhile (fun p => p.2 < 0)).length : ℤ)
  { re with
    recent_trades := recent
    metrics := { re.metrics with consecutive_losses := consecutive } }

/-- `RiskEngine::trigger_circuit_breaker` from risk.rs. -/
def RiskEngine.trigger_circuit_breaker (re : RiskEngine) (now : ℤ) :
    RiskEngine :=
  { re with metrics :=
    { re.metrics with
      circuit_breaker_active := true
      circuit_breaker_until :=
        some (now + re.limits.circuit_breaker_duration_minutes * 60) } }

/-- `RiskEngine::update_after_trade` from risk.rs.  Note the hard-coded
reference equity 100000.0 in the circuit-breaker trigger condition
(`let portfolio_loss_pct = current_pnl / 100000.0`). -/
def RiskEngine.update_after_trade (re : RiskEngine) (now : ℤ) (trade : Trade)
    (current_pnl : ℚ) : RiskEngine :=
  let re1 :=
    { re with
      metrics :=
        { re.metrics with
          daily_trades := re.metrics.daily_trades + 1
          daily_volume := re.metrics.daily_volume + |trade.net_amount| }
      daily_trades := re.daily_trades ++ [trade.id]
      recent_trades := re.recent_trades ++ [(trade.timestamp, current_pnl)] }
  let re2 := re1.update_consecutive_losses now
  let portfolio_loss_pct := current_pnl / 100000.0
  let re3 :=
    if portfolio_loss_pct < -re2.limits.circuit_breaker_loss_pct then
      re2.trigger_circuit_breaker now
    else re2
  { re3 with metrics := { re3.metrics with last_updated := now } }

/-- Modelled from the spec: `update_after_trade` as §4.4/§9 of the spec
describe it, with the hard-coded 100000 reference equity replaced by the
day-start equity `reference_equity` supplied at construction ("Reference
equity for circuit breaker. The source hard-codes 100000. This spec
replaces it with the injected day_start_equity").  Identical to
`RiskEngine.update_after_trade` except for the breaker denominator. -/
def RiskEngine.update_after_trade_specEquity (reference_equity : ℚ)
    (re : RiskEngine) (now : ℤ) (trade : Trade) (current_pnl : ℚ) :
    RiskEngine :=
  let re1 :=
    { re with
      metrics :=
        { re.metrics with
          daily_trades := re.metrics.daily_trades + 1
          daily_volume := re.metrics.daily_volume + |trade.net_amount| }
      daily_trades := re.daily_trades ++ [trade.id]
      recent_trades := re.recent_trades ++ [(trade.timestamp, current_pnl)] }
  let re2 := re1.update_consecutive_losses now
  let portfolio_loss_pct := current_pnl / reference_equity
  let re3 :=
    if portfolio_loss_pct < -re2.limits.circuit_breaker_loss_pct then
      re2.trigger_circuit_breaker now
    else re2
  { re3 with metrics := { re3.metrics with last_updated := now } }

/-! ## broker.rs -/

/-- `PaperBroker` from broker.rs, restricted to the fields the claims
touch.  The persistence handle (`storage`), auto-save bookkeeping, MtM
engine, option assignment logs and the calendar value are not part of this
state: journaling is modelled by the `trades` list append, the MtM
snapshot handed to the risk check is an explicit argument, and the
calendar is embedded as standalone functions below. -/
structure PaperBroker where
  cash : ℚ
  positions : List (String × Position)
  orders : List (String × Order)
  trades : List Trade
  market_data : List (String × MarketData)
  config : BrokerConfig
  day_start_equity : ℚ
  risk_engine : RiskEngine
deriving DecidableEq, Repr

/-- The net cash amount of a fill, the expression computed identically in
`apply_fill_to_position` (broker.rs:665-668) and `record_trade`
(broker.rs:679-682): buy ⇒ −(price·qty + commission), sell ⇒
price·qty − commission. -/
def fillNetAmount (fill : Fill) : ℚ :=
  match fill.side with
  | .Buy => -(fill.price * (fill.quantity : ℚ) + fill.commission)
  | .Sell => fill.price * (fill.quantity : ℚ) - fill.commission

/-- The `Trade` built by `record_trade` (broker.rs:684-698); `tid` models
the `Uuid::new_v4()` trade id. -/
def Trade.ofFill (tid : String) (fill : Fill) : Trade where
  id := tid
  symbol := fill.symbol
  side := fill.side
  quantity := fill.quantity
  price := fill.price
  timestamp := fill.timestamp
  order_id := fill.order_id
  commission := fill.commission
  net_amount := fillNetAmount fill
  instrument_type := fill.instrument_type
  option_details := fill.option_details
  leg_number := fill.leg_number
  assignment_id := none

/-- `PaperBroker::calculate_commission` from broker.rs; the Rust method
reads only `order.instrument_type` from the order (the `price` argument is
unused by both branches, as in the source). -/
def calculate_commission (config : BrokerConfig)
    (order_instrument : InstrumentType) (quantity : ℤ) (_price : ℚ) : ℚ :=
  match order_instrument with
  | .Stock =>
      let per_share_commission := (quantity : ℚ) * config.commission_per_share
      let total_commission := per_share_commission + config.commission_per_trade
      min (max total_commission config.min_commission) config.max_commission
  | .Option =>
      let per_contract_commission :=
        (quantity : ℚ) * config.option_commission_per_contract
      let total_commission :=
        per_contract_commission + config.option_commission_per_trade
      min (max total_commission config.option_min_commission)
        config.option_max_commission

/-- Lower bound of the `gen_range(min_fill..=remaining)` draw in
`determine_fill_quantity` (broker.rs:627): `(remaining as f64 * ratio) as
i64` truncates toward zero. -/
def min_fill_bound (config : BrokerConfig) (remaining_quantity : ℤ) : ℤ :=
  qTrunc ((remaining_quantity : ℚ) * config.min_pfill_ratio)

/-- `PaperBroker::determine_fill_quantity` from broker.rs.  The Rust body
draws from `rand::thread_rng()` — a thread-local generator that is not a
field of `PaperBroker` and takes no seed from the broker; the two draws
are therefore ambient inputs here: `u` models `rng.gen::<f64>()` and
`draw` models `rng.gen_range(min_fill..=remaining_quantity)` (so
`min_fill_bound config remaining_quantity ≤ draw ≤ remaining_quantity`
whenever that branch is taken). -/
def determine_fill_quantity (config : BrokerConfig)
    (remaining_quantity : ℤ) (u : ℚ) (draw : ℤ) : ℤ :=
  if u < config.pfill_probability then
    max draw 1
  else
    remaining_quantity

/-- `PaperBroker::apply_slippage` from broker.rs. -/
def apply_slippage (config : BrokerConfig) (price : ℚ) (side : OrderSide)
    (quantity : ℤ) : ℚ :=
  let slippage_factor := config.slippage_bps / 10000
  let size_impact := min ((quantity : ℚ) / 1000) 1
  let total_slippage := slippage_factor * (1 + size_impact)
  match side with
  | .Buy => price * (1 + total_slippage)
  | .Sell => price * (1 - total_slippage)

/-- `PaperBroker::apply_fill_to_position` from broker.rs: fetch-or-create
the position, apply the fill, move cash by the fill's net amount, drop the
position when its quantity reaches zero. -/
def apply_fill_to_position (b : PaperBroker) (fill : Fill) (now : ℤ) :
    PaperBroker :=
  let position0 :=
    (alGet b.positions fill.symbol).getD (Position.new fill.symbol now)
  let position1 := (position0.apply_fill fill now).1
  let positions1 := alInsert b.positions fill.symbol position1
  let net_amount := fillNetAmount fill
  let positions2 :=
    if position1.quantity = 0 then alErase positions1 fill.symbol
    else positions1
  { b with cash := b.cash + net_amount, positions := positions2 }

/-- `PaperBroker::record_trade` from broker.rs: push the trade onto the
in-memory list; the journal append and auto-save are I/O on the same
record.  `tid` models the fresh `Uuid::new_v4()`. -/
def record_trade (b : PaperBroker) (tid : String) (fill : Fill) :
    PaperBroker :=
  { b with trades := b.trades ++ [Trade.ofFill tid fill] }

/-- `Portfolio.total_pnl` as computed by `get_portfolio` (broker.rs:169-192):
the sum of realized plus unrealized P&L over all positions. -/
def portfolio_total_pnl (b : PaperBroker) : ℚ :=
  (b.positions.map (fun p => p.2.realized_pnl + p.2.unrealized_pnl)).sum

/-- `Portfolio.equity` as computed by `get_portfolio`: cash plus the sum of
position market values. -/
def portfolio_equity (b : PaperBroker) : ℚ :=
  b.cash + (b.positions.map (fun p => p.2.market_value)).sum

/-- One iteration of the fill loop in `try_execute_order`
(broker.rs:498-507): `order.add_fill`, `apply_fill_to_position`,
`record_trade`, then `risk_engine.update_after_trade` with the fresh
cumulative total P&L and the just-recorded trade (`trades[len − 1]`). -/
def apply_fill_step (now : ℤ) (tid : String) (b : PaperBroker)
    (order : Order) (fill : Fill) : PaperBroker × Order :=
  let order1 := order.add_fill fill now
  let b1 := apply_fill_to_position b fill now
  let b2 := record_trade b1 tid fill
  let current_total_pnl := portfolio_total_pnl b2
  let trade := (b2.trades.getLast?).getD (Trade.ofFill tid fill)
  let re := b2.risk_engine.update_after_trade now trade current_total_pnl
  ({ b2 with risk_engine := re }, order1)

/-- The whole fill loop of `try_execute_order` over a list of fills, each
paired with the ambient trade id drawn for it. -/
def apply_fills (now : ℤ) (b : PaperBroker) (order : Order)
    (l : List (String × Fill)) : PaperBroker × Order :=
  l.foldl (fun acc p => apply_fill_step now p.1 acc.1 acc.2 p.2) (b, order)

/-- `PaperBroker::execute_limit_order` from broker.rs.  Ambient inputs:
`now` (fill timestamp), `fid` (`Uuid::new_v4()` fill id), `u`/`draw` (the
`determine_fill_quantity` randomness).  The source unwraps `order.price`;
`validate` guarantees limit orders carry a price, and the theorems
hypothesise it. -/
def execute_limit_order (b : PaperBroker) (order : Order) (now : ℤ)
    (fid : String) (u : ℚ) (draw : ℤ) : Option Fill :=
  match alGet b.market_data order.symbol with
  | none => none
  | some md =>
    let limit_price := order.price.getD 0
    let can_fill : Bool :=
      match order.side with
      | .Buy =>
          match md.ask with
          | some ask => decide (ask ≤ limit_price)
          | none => decide (md.last_price ≤ limit_price)
      | .Sell =>
          match md.bid with
          | some bid => decide (bid ≥ limit_price)
          | none => decide (md.last_price ≥ limit_price)
    if can_fill then
      let fill_quantity :=
        determine_fill_quantity b.config order.remaining_quantity u draw
      let commission :=
        calculate_commission b.config order.instrument_type fill_quantity
          limit_price
      some
        { id := fid
          order_id := order.id
          symbol := order.symbol
          side := order.side
          quantity := fill_quantity
          price := limit_price
          timestamp := now
          commission := commission
          instrument_type := order.instrument_type
          option_details := order.option_details
          leg_number := none }
    else
      none

/-- `PaperBroker::execute_market_order` from broker.rs, with the same
ambient inputs as `execute_limit_order`. -/
def execute_market_order (b : PaperBroker) (order : Order) (now : ℤ)
    (fid : String) (u : ℚ) (draw : ℤ) : Option Fill :=
  match alGet b.market_data order.symbol with
  | none => none
  | some md =>
    let fill_price :=
      match order.side with
      | .Buy => md.ask.getD md.last_price
      | .Sell => md.bid.getD md.last_price
    let slipped_price :=
      apply_slippage b.config fill_price order.side order.remaining_quantity
    let fill_quantity :=
      determine_fill_quantity b.config order.remaining_quantity u draw
    let commission :=
      calculate_commission b.config order.instrument_type fill_quantity
        slipped_price
    some
      { id := fid
        order_id := order.id
        symbol := order.symbol
        side := order.side
        quantity := fill_quantity
        price := slipped_price
        timestamp := now
        commission := commission
        instrument_type := order.instrument_type
        option_details := order.option_details
        leg_number := none }

/-- The `OrderType::Limit` branch of `try_execute_order`
(broker.rs:479-486 and the fill loop 497-515), entered when the calendar
gate has allowed trading: attempt `execute_limit_order`, then apply any
produced fill to the order, position, cash, trade list and risk engine.
`tid` is the ambient trade id used if a fill is produced. -/
def try_execute_limit (b : PaperBroker) (order : Order) (now : ℤ)
    (fid tid : String) (u : ℚ) (draw : ℤ) :
    PaperBroker × Order × TradeExecution :=
  let fills : List Fill :=
    match execute_limit_order b order now fid u draw with
    | some fill => [fill]
    | none => []
  let message :=
    if fills.isEmpty then "Limit order pending" else "Limit order executed"
  let (b1, order1) := apply_fills now b order (fills.map (fun f => (tid, f)))
  (b1, order1,
    { order_id := order.id, fills := fills, status := order1.status,
      message := message })

/-- `PaperBroker::estimate_order_cost` from broker.rs.  The temporary
order built for the commission estimate carries the request's instrument
type.  The Rust return type is `Result` but every path returns `Ok`. -/
def estimate_order_cost (b : PaperBroker) (request : OrderRequest) : ℚ :=
  let market_data := alGet b.market_data request.symbol
  let estimated_price :=
    match request.order_type with
    | .Market =>
        match request.side with
        | .Buy => (market_data.bind (fun d => d.ask)).getD 100.0
        | .Sell => (market_data.bind (fun d => d.bid)).getD 100.0
    | .Limit => request.price.getD 100.0
    | .Stop => request.stop_price.getD 100.0
    | .StopLimit => request.stop_price.getD 100.0
  let gross_amount := estimated_price * (request.quantity : ℚ)
  let commission :=
    calculate_commission b.config request.instrument_type request.quantity
      estimated_price
  gross_amount + commission

/-- `PaperBroker::place_order` from broker.rs.  `tryExec` stands for
`try_execute_order` (whose market/limit/stop branches are embedded above
with their ambient inputs); it receives the broker and the freshly built
order and returns the mutated broker, the mutated order and the execution
result.  `oid` models the `Uuid::new_v4()` order id, `greeks` the
portfolio Greeks of the MtM snapshot taken at entry.  On the `Err` paths
of the validation, risk, buying-power and share checks the function
returns before touching any state, exactly as the Rust early returns do. -/
def place_order
    (tryExec : PaperBroker → Order →
      PaperBroker × Order × Except String TradeExecution)
    (b : PaperBroker) (request : OrderRequest) (now : ℤ) (oid : String)
    (greeks : PortfolioGreeks) : PaperBroker × Except String TradeExecution :=
  match request.validate with
  | .error e => (b, .error e)
  | .ok _ =>
    let equity := portfolio_equity b
    let risk_check :=
      b.risk_engine.check_order_risk now request equity b.positions
        (some greeks)
    if !risk_check.allowed then
      (b, .error "Risk check failed")
    else if request.side = .Buy ∧ estimate_order_cost b request > b.cash then
      (b, .error "Insufficient buying power")
    else if request.side = .Sell ∧
        request.quantity >
          (match alGet b.positions request.symbol with
           | some p => max p.quantity 0
           | none => 0) then
      (b, .error "Insufficient shares to sell")
    else
      let order := Order.new request oid now
      match tryExec b order with
      | (b1, _, .error e) => (b1, .error e)
      | (b1, order1, .ok execution) =>
          ({ b1 with orders := alInsert b1.orders oid order1 }, .ok execution)

/-- The `OrderRequest` synthesized by `PaperBroker::close_position`
(broker.rs:380-405), or the error it returns before building one. -/
def close_position_request (b : PaperBroker) (symbol : String) :
    Except String OrderRequest :=
  match alGet b.positions symbol with
  | none => .error "Position not found"
  | some position =>
    if position.quantity = 0 then
      .error "No position to close"
    else
      .ok
        { symbol := symbol
          side := if position.quantity > 0 then .Sell else .Buy
          order_type := .Market
          quantity := |position.quantity|
          price := none
          stop_price := none
          time_in_force := .Day
          client_order_id := none
          instrument_type := .Stock
          option_details := none }

/-- `PaperBroker::close_position`: synthesize the request and route it
through `place_order`. -/
def close_position
    (tryExec : PaperBroker → Order →
      PaperBroker × Order × Except String TradeExecution)
    (b : PaperBroker) (symbol : String) (now : ℤ) (oid : String)
    (greeks : PortfolioGreeks) : PaperBroker × Except String TradeExecution :=
  match close_position_request b symbol with
  | .error e => (b, .error e)
  | .ok request => place_order tryExec b request now oid greeks

/-- The order-id collection loop of `PaperBroker::process_pending_orders`
(broker.rs:597-601): iterate the open-orders `HashMap`, keep the entries on
`symbol` for which `can_fill()` holds, and retry them in that sequence.
`enum` is the `HashMap` iteration sequence — an unspecified permutation of
the stored entries. -/
def pending_order_ids (enum : List (String × Order)) (symbol : String) :
    List String :=
  (enum.filter (fun p => p.2.symbol == symbol && p.2.can_fill)).map
    (fun p => p.1)

/-! ## calendar.rs -/

/-- `MarketSession` from calendar.rs. -/
inductive MarketSession
  | PreMarket
  | Regular
  | AfterHours
  | Closed
deriving DecidableEq, Repr

/-- `HolidayType` from calendar.rs. -/
inductive HolidayType
  | Full
  | EarlyClose
deriving DecidableEq, Repr

/-- A Gregorian calendar date (chrono `NaiveDate` as the engine uses it). -/
structure Date where
  year : ℕ
  month : ℕ
  day : ℕ
deriving DecidableEq, Repr

/-- Day of week by Zeller's congruence (0 = Saturday, 1 = Sunday, …,
6 = Friday), the value chrono's `date.weekday()` classifies; valid for the
Gregorian dates the engine handles. -/
def Date.zeller (d : Date) : ℕ :=
  let m := if d.month ≤ 2 then d.month + 12 else d.month
  let y := if d.month ≤ 2 then d.year - 1 else d.year
  (d.day + (13 * (m + 1)) / 5 + y % 100 + (y % 100) / 4 + (y / 100) / 4 +
    5 * (y / 100)) % 7

/-- Whether chrono's `date.weekday()` is `Sat` or `Sun`. -/
def Date.isWeekend (d : Date) : Bool :=
  d.zeller ≤ 1

/-- `MarketHoliday` from calendar.rs. -/
structure MarketHoliday where
  date : Date
  name : String
  holiday_type : HolidayType
deriving DecidableEq, Repr

/-- `TradingSession` from calendar.rs; times are seconds since midnight
Eastern (chrono `NaiveTime` at whole seconds). -/
structure TradingSession where
  date : Date
  session : MarketSession
  start_time : ℕ
  end_time : ℕ
  is_holiday : Bool
  holiday_name : Option String
deriving DecidableEq, Repr

/-- `MarketCalendar` from calendar.rs. -/
structure MarketCalendar where
  holidays : List MarketHoliday
  allow_premarket : Bool
  allow_afterhours : Bool
  allow_holiday_trading : Bool
deriving DecidableEq, Repr

/-- `MarketCalendar::get_2024_holidays` from calendar.rs. -/
def get_2024_holidays : List MarketHoliday :=
  [ { date := ⟨2024, 1, 1⟩, name := "New Years Day",
      holiday_type := .Full },
    { date := ⟨2024, 1, 15⟩, name := "Martin Luther King Jr. Day",
      holiday_type := .Full },
    { date := ⟨2024, 2, 19⟩, name := "Presidents Day",
      holiday_type := .Full },
    { date := ⟨2024, 3, 29⟩, name := "Good Friday",
      holiday_type := .Full },
    { date := ⟨2024, 5, 27⟩, name := "Memorial Day",
      holiday_type := .Full },
    { date := ⟨2024, 6, 19⟩, name := "Juneteenth",
      holiday_type := .Full },
    { date := ⟨2024, 7, 4⟩, name := "Independence Day",
      holiday_type := .Full },
    { date := ⟨2024, 9, 2⟩, name := "Labor Day",
      holiday_type := .Full },
    { date := ⟨2024, 11, 28⟩, name := "Thanksgiving Day",
      holiday_type := .Full },
    { date := ⟨2024, 11, 29⟩, name := "Day after Thanksgiving",
      holiday_type := .EarlyClose },
    { date := ⟨2024, 12, 24⟩, name := "Christmas Eve",
      holiday_type := .EarlyClose },
    { date := ⟨2024, 12, 25⟩, name := "Christmas Day",
      holiday_type := .Full } ]

/-- `MarketCalendar::default()` from calendar.rs. -/
def MarketCalendar.default : MarketCalendar where
  holidays := get_2024_holidays
  allow_premarket := false
  allow_afterhours := false
  allow_holiday_trading := false

/-- `MarketCalendar::get_session_info` from calendar.rs, expressed on the
US/Eastern wall-clock value that the Rust code obtains with
`dt.with_timezone(&Eastern)`: `date` is the Eastern civil date and `time`
the Eastern time of day in seconds since midnight.  Window boundaries in
seconds: 04:00 = 14400, 09:30 = 34200, 13:00 = 46800, 16:00 = 57600,
20:00 = 72000. -/
def get_session_info (cal : MarketCalendar) (date : Date) (time : ℕ) :
    TradingSession :=
  if date.isWeekend then
    { date := date, session := .Closed, start_time := 0, end_time := 0,
      is_holiday := false, holiday_name := none }
  else
    let holiday := cal.holidays.find? (fun h => h.date == date)
    let is_holiday := holiday.isSome
    let holiday_name := holiday.map (fun h => h.name)
    let session : MarketSession :=
      match holiday with
      | some h =>
        match h.holiday_type with
        | .Full =>
            if cal.allow_holiday_trading then
              if time < 14400 then .Closed
              else if time < 34200 then .PreMarket
              else if time < 57600 then .Regular
              else if time < 72000 then .AfterHours
              else .Closed
            else .Closed
        | .EarlyClose =>
            if time < 34200 then .PreMarket
            else if time < 46800 then .Regular
            else .Closed
      | none =>
          if time < 14400 then .Closed
          else if time < 34200 then .PreMarket
          else if time < 57600 then .Regular
          else if time < 72000 then .AfterHours
          else .Closed
    let is_early_close :=
      match holiday with
      | some h => h.holiday_type == HolidayType.EarlyClose
      | none => false
    let bounds : ℕ × ℕ :=
      match session with
      | .PreMarket => (14400, 34200)
      | .Regular =>
          if is_holiday && is_early_close then (34200, 46800)
          else (34200, 57600)
      | .AfterHours => (57600, 72000)
      | .Closed => (0, 0)
    { date := date, session := session, start_time := bounds.1,
      end_time := bounds.2, is_holiday := is_holiday,
      holiday_name := holiday_name }

/-! ## Claim C3: sign flip and cost basis -/

/-- C3 counterexample.  A long position of 10 shares at avg_cost 50 hit by
a sell fill of 25 at price 60 flips to −15 short; the claim says the
resulting avg_cost equals the fill price (60), but `Position::apply_fill`
only clears avg_cost when the new quantity is zero, so the flipped
position keeps the old avg_cost 50. -/
theorem c3_flip_counterexample :
    ((Position.apply_fill
      { symbol := "AAPL", quantity := 10, avg_cost := 50,
        market_value := 500, unrealized_pnl := 0, realized_pnl := 0,
        last_price := 50, updated_at := 0 }
      { id := "f1", order_id := "o1", symbol := "AAPL",
        side := OrderSide.Sell, quantity := 25, price := 60, timestamp := 1,
        commission := 1, instrument_type := InstrumentType.Stock,
        option_details := none, leg_number := none } 1).1).quantity = -15 ∧
    ((Position.apply_fill
      { symbol := "AAPL", quantity := 10, avg_cost := 50,
        market_value := 500, unrealized_pnl := 0, realized_pnl := 0,
        last_price := 50, updated_at := 0 }
      { id := "f1", order_id := "o1", symbol := "AAPL",
        side := OrderSide.Sell, quantity := 25, price := 60, timestamp := 1,
        commission := 1, instrument_type := InstrumentType.Stock,
        option_details := none, leg_number := none } 1).1).avg_cost = 50 ∧
    (50 : ℚ) ≠ 60 := by
  refine ⟨by decide, by decide, by decide⟩

/-- C3 amended: when a fill of opposite sign strictly larger in magnitude
than the current quantity flips the position, the residual position keeps
the previous avg_cost (avg_cost is reset only when the new quantity is
exactly zero), and the new quantity is old plus the signed fill
quantity. -/
theorem c3_flip_keeps_avg_cost (p : Position) (f : Fill) (now : ℤ) (fq : ℤ)
    (hfq : fq = (match f.side with
      | OrderSide.Buy => f.quantity
      | OrderSide.Sell => -f.quantity))
    (hopp : (p.quantity > 0 ∧ fq < 0) ∨ (p.quantity < 0 ∧ fq > 0))
    (hflip : |fq| > |p.quantity|) :
    ((p.apply_fill f now).1).avg_cost = p.avg_cost ∧
    ((p.apply_fill f now).1).quantity = p.quantity + fq := by
  have h0 : ¬ p.quantity = 0 := by rcases hopp with ⟨h, _⟩ | ⟨h, _⟩ <;> omega
  have h1 : ¬ ((p.quantity > 0 ∧ fq > 0) ∨ (p.quantity < 0 ∧ fq < 0)) := by
    rcases hopp with ⟨h, h2⟩ | ⟨h, h2⟩ <;> omega
  have h2 : ¬ (p.quantity + fq = 0) := by
    rcases hopp with ⟨h, h3⟩ | ⟨h, h3⟩
    · rw [abs_of_neg h3, abs_of_pos h] at hflip; omega
    · rw [abs_of_pos h3, abs_of_neg h] at hflip; omega
  simp only [Position.apply_fill, Position.update_market_data, ← hfq]
  rw [if_neg h0, if_neg h1]
  simp only []
  rw [if_neg (by simpa using h2)]
  exact ⟨rfl, rfl⟩

/-- C3 amended witness: the counterexample scenario through the amended
theorem — long 10 at 50, sell 25 at 60 keeps avg_cost 50. -/
theorem c3_flip_keeps_avg_cost_witness :
    ((Position.apply_fill
      { symbol := "AAPL", quantity := 10, avg_cost := 50,
        market_value := 500, unrealized_pnl := 0, realized_pnl := 0,
        last_price := 50, updated_at := 0 }
      { id := "f1", order_id := "o1", symbol := "AAPL",
        side := OrderSide.Sell, quantity := 25, price := 60, timestamp := 1,
        commission := 1, instrument_type := InstrumentType.Stock,
        option_details := none, leg_number := none } 1).1).avg_cost = 50 ∧
    ((Position.apply_fill
      { symbol := "AAPL", quantity := 10, avg_cost := 50,
        market_value := 500, unrealized_pnl := 0, realized_pnl := 0,
        last_price := 50, updated_at := 0 }
      { id := "f1", order_id := "o1", symbol := "AAPL",
        side := OrderSide.Sell, quantity := 25, price := 60, timestamp := 1,
        commission := 1, instrument_type := InstrumentType.Stock,
        option_details := none, leg_number := none } 1).1).quantity =
      10 + (-25) :=
  c3_flip_keeps_avg_cost _ _ 1 (-25) rfl (Or.inl (by decide)) (by decide)

/-! ## Claim C1: cash conservation -/

/-- One step of the fill loop moves cash by exactly the fill's net amount
and appends exactly the recorded trade. -/
theorem apply_fill_step_cash_trades (now : ℤ) (tid : String)
    (b : PaperBroker) (o : Order) (f : Fill) :
    (apply_fill_step now tid b o f).1.cash = b.cash + fillNetAmount f ∧
    (apply_fill_step now tid b o f).1.trades =
      b.trades ++ [Trade.ofFill tid f] :=
  ⟨rfl, rfl⟩

/-- Fold form of the fill loop for the cash and trade lists. -/
theorem apply_fills_cash_trades (now : ℤ) :
    ∀ (l : List (String × Fill)) (b : PaperBroker) (o : Order),
    (apply_fills now b o l).1.cash =
      b.cash + (l.map (fun p => fillNetAmount p.2)).sum ∧
    (apply_fills now b o l).1.trades =
      b.trades ++ l.map (fun p => Trade.ofFill p.1 p.2)
  | [], b, o => by simp [apply_fills]
  | p :: l, b, o => by
    have hstep := apply_fill_step_cash_trades now p.1 b o p.2
    have ih := apply_fills_cash_trades now l
      (apply_fill_step now p.1 b o p.2).1 (apply_fill_step now p.1 b o p.2).2
    simp only [apply_fills, List.foldl_cons] at *
    constructor
    · rw [ih.1, hstep.1, List.map_cons, List.sum_cons]; ring
    · rw [ih.2, hstep.2, List.map_cons]; simp

/-- C1: cash conservation.  Each fill applied by the broker's fill loop
moves cash by exactly −(price·qty + commission) for a buy and
+(price·qty − commission) for a sell; that delta is exactly the
`net_amount` on the `Trade` the same step records; and over any sequence
of fills the final cash equals the initial cash plus the sum of the
recorded trades' net amounts (the trades appended to the journal list are
exactly one per fill). -/
theorem c1_cash_conservation (now : ℤ) (b : PaperBroker) (o : Order)
    (l : List (String × Fill)) :
    (apply_fills now b o l).1.cash =
      b.cash +
        (((apply_fills now b o l).1.trades.drop b.trades.length).map
          (fun t => t.net_amount)).sum ∧
    (apply_fills now b o l).1.trades =
      b.trades ++ l.map (fun p => Trade.ofFill p.1 p.2) ∧
    (∀ (b2 : PaperBroker) (o2 : Order) (tid : String) (f : Fill),
      (apply_fill_step now tid b2 o2 f).1.cash - b2.cash = fillNetAmount f ∧
      (apply_fill_step now tid b2 o2 f).1.trades =
        b2.trades ++ [Trade.ofFill tid f] ∧
      (Trade.ofFill tid f).net_amount = fillNetAmount f) ∧
    (∀ f : Fill, fillNetAmount f =
      match f.side with
      | OrderSide.Buy => -(f.price * (f.quantity : ℚ) + f.commission)
      | OrderSide.Sell => f.price * (f.quantity : ℚ) - f.commission) := by
  have h := apply_fills_cash_trades now l b o
  refine ⟨?_, h.2, ?_, fun f => rfl⟩
  · rw [h.1, h.2, List.drop_append_of_le_length (le_refl _)]
    simp [List.map_map]
    congr 1
  · intro b2 o2 tid f
    have hs := apply_fill_step_cash_trades now tid b2 o2 f
    exact ⟨by rw [hs.1]; ring, hs.2, rfl⟩

/-! ## Claim C4: limit-order semantics -/

/-- C4: with a quote present, a buy limit order fills iff ask ≤ limit
(falling back to last ≤ limit when the ask is absent), a sell iff
bid ≥ limit (falling back to last ≥ limit); any produced fill is at
exactly the limit price (no slippage); and when the condition fails the
limit branch of `try_execute_order` produces no fill and leaves the broker
and the order (hence its Pending status) unchanged. -/
theorem c4_limit_order_semantics (b : PaperBroker) (order : Order)
    (now : ℤ) (fid tid : String) (u : ℚ) (draw : ℤ) (md : MarketData)
    (lp : ℚ) (hmd : alGet b.market_data order.symbol = some md)
    (hlp : order.price = some lp) :
    (order.side = OrderSide.Buy →
      ((execute_limit_order b order now fid u draw).isSome ↔
        (match md.ask with
         | some ask => ask ≤ lp
         | none => md.last_price ≤ lp))) ∧
    (order.side = OrderSide.Sell →
      ((execute_limit_order b order now fid u draw).isSome ↔
        (match md.bid with
         | some bid => bid ≥ lp
         | none => md.last_price ≥ lp))) ∧
    (∀ f, execute_limit_order b order now fid u draw = some f →
      f.price = lp) ∧
    (execute_limit_order b order now fid u draw = none →
      try_execute_limit b order now fid tid u draw =
        (b, order,
          { order_id := order.id, fills := [], status := order.status,
            message := "Limit order pending" })) := by
  refine ⟨?_, ?_, ?_, ?_⟩
  · intro hside
    cases hask : md.ask with
    | none =>
        by_cases hc : md.last_price ≤ lp <;>
          simp [execute_limit_order, hmd, hlp, hside, hask, hc]
    | some ask =>
        by_cases hc : ask ≤ lp <;>
          simp [execute_limit_order, hmd, hlp, hside, hask, hc]
  · intro hside
    cases hbid : md.bid with
    | none =>
        by_cases hc : md.last_price ≥ lp <;>
          simp [execute_limit_order, hmd, hlp, hside, hbid, hc]
    | some bid =>
        by_cases hc : bid ≥ lp <;>
          simp [execute_limit_order, hmd, hlp, hside, hbid, hc]
  · intro f hf
    simp only [execute_limit_order, hmd, hlp] at hf
    split at hf
    · cases hf
      rfl
    · cases hf
  · intro hnone
    simp [try_execute_limit, hnone, apply_fills]

/-- Quote fixture for the C4 witness: AAPL last 150, bid 149.95,
ask 149. -/
def c4Md : MarketData where
  symbol := "AAPL"
  last_price := 150
  bid := some 149.95
  ask := some 149
  bid_size := some 1000
  ask_size := some 1000
  volume := some 10000
  timestamp := 0

/-- Broker fixture for the C4 witness. -/
def c4B : PaperBroker where
  cash := 100000
  positions := []
  orders := []
  trades := []
  market_data := [("AAPL", c4Md)]
  config := BrokerConfig.default
  day_start_equity := 100000
  risk_engine := RiskEngine.new RiskLimits.default 0

/-- Order fixture for the C4 witness: buy limit 100 AAPL at 150. -/
def c4Order : Order :=
  Order.new
    { symbol := "AAPL", side := OrderSide.Buy, order_type := OrderType.Limit,
      quantity := 100, price := some 150, stop_price := none,
      time_in_force := TimeInForce.Day, client_order_id := none,
      instrument_type := InstrumentType.Stock, option_details := none }
    "o1" 0

/-- C4 witness: with ask 149 ≤ limit 150, the buy limit order fills. -/
theorem c4_limit_order_semantics_witness :
    (execute_limit_order c4B c4Order 0 "f1" 1 50).isSome := by
  have h := c4_limit_order_semantics c4B c4Order 0 "f1" "t1" 1 50 c4Md 150
    rfl rfl
  exact (h.1 rfl).mpr (show (149 : ℚ) ≤ 150 by decide)

/-! ## Claim C10: close_position always synthesizes a stock order -/

/-- A fill produced by `execute_market_order` carries the order's
instrument type and option details. -/
theorem execute_market_order_instrument (b : PaperBroker) (order : Order)
    (now : ℤ) (fid : String) (u : ℚ) (draw : ℤ) (f : Fill)
    (hf : execute_market_order b order now fid u draw = some f) :
    f.instrument_type = order.instrument_type ∧
    f.option_details = order.option_details := by
  simp only [execute_market_order] at hf
  rcases halg : alGet b.market_data order.symbol with _ | md
  · rw [halg] at hf; cases hf
  · rw [halg] at hf
    cases hf
    exact ⟨rfl, rfl⟩

/-- C10: closing any existing position with nonzero quantity synthesizes a
market order whose instrument_type is Stock and whose option_details is
none — regardless of what the position holds — so a fill for this order,
and hence the recorded trade, carries the Stock instrument type and its
commission is computed by the stock schedule
(clamp(qty·per_share + per_trade) into [min, max]), never the option
schedule. -/
theorem c10_close_position_stock (b : PaperBroker) (symbol : String)
    (p : Position) (hp : alGet b.positions symbol = some p)
    (hq : p.quantity ≠ 0) :
    ∃ req, close_position_request b symbol = .ok req ∧
      req.instrument_type = InstrumentType.Stock ∧
      req.option_details = none ∧
      req.order_type = OrderType.Market ∧
      req.quantity = |p.quantity| ∧
      req.side = (if p.quantity > 0 then OrderSide.Sell else OrderSide.Buy) ∧
      (∀ (now : ℤ) (oid fid : String) (u : ℚ) (draw : ℤ) (f : Fill),
        execute_market_order b (Order.new req oid now) now fid u draw =
          some f →
        f.instrument_type = InstrumentType.Stock ∧
        f.option_details = none ∧
        (Trade.ofFill "t" f).instrument_type = InstrumentType.Stock) ∧
      (∀ (q : ℤ) (pr : ℚ),
        calculate_commission b.config req.instrument_type q pr =
          min (max ((q : ℚ) * b.config.commission_per_share +
            b.config.commission_per_trade) b.config.min_commission)
            b.config.max_commission) := by
  refine
    ⟨{ symbol := symbol
       side := if p.quantity > 0 then OrderSide.Sell else OrderSide.Buy
       order_type := .Market
       quantity := |p.quantity|
       price := none
       stop_price := none
       time_in_force := .Day
       client_order_id := none
       instrument_type := .Stock
       option_details := none }, ?_, rfl, rfl, rfl, rfl, rfl, ?_,
      fun q pr => rfl⟩
  · simp only [close_position_request, hp]
    rw [if_neg hq]
  · intro now oid fid u draw f hf
    obtain ⟨h1, h2⟩ := execute_market_order_instrument _ _ _ _ _ _ _ hf
    exact ⟨h1, h2, h1⟩

/-- Position fixture for the C10 witness: a short equity-option position
(OCC symbol) with nonzero quantity. -/
def c10Pos : Position where
  symbol := "AAPL240621C00150000"
  quantity := -3
  avg_cost := 5
  market_value := -15
  unrealized_pnl := 0
  realized_pnl := 0
  last_price := 5
  updated_at := 0

/-- Broker fixture for the C10 witness. -/
def c10B : PaperBroker where
  cash := 100000
  positions := [("AAPL240621C00150000", c10Pos)]
  orders := []
  trades := []
  market_data := []
  config := BrokerConfig.default
  day_start_equity := 100000
  risk_engine := RiskEngine.new RiskLimits.default 0

/-- C10 witness: closing the option position synthesizes a request tagged
as a Stock instrument with no option details. -/
theorem c10_close_position_stock_witness :
    ∃ req, close_position_request c10B "AAPL240621C00150000" = .ok req ∧
      req.instrument_type = InstrumentType.Stock ∧
      req.option_details = none := by
  obtain ⟨req, h1, h2, h3, -⟩ :=
    c10_close_position_stock c10B "AAPL240621C00150000" c10Pos rfl
      (by decide)
  exact ⟨req, h1, h2, h3⟩

/-! ## Claim C5: estimated price used by the risk check -/

/-- Modelled from the spec (§4.4): "Estimated price for sizing: market
order uses ask (buy) or bid (sell) if present, else last, else a
configured fallback (100.0); limit uses price; stop uses stop_price."
Defined only to compare with the price `check_order_risk` actually uses. -/
def risk_sizing_price_spec (req : OrderRequest) (md : Option MarketData) :
    ℚ :=
  match req.order_type with
  | .Market =>
      match req.side with
      | .Buy =>
          match md with
          | some d => d.ask.getD d.last_price
          | none => 100.0
      | .Sell =>
          match md with
          | some d => d.bid.getD d.last_price
          | none => 100.0
  | .Limit => req.price.getD 100.0
  | .Stop => req.stop_price.getD 100.0
  | .StopLimit => req.stop_price.getD 100.0

/-- Stop-order request fixture for C5: stop price 77, no limit price. -/
def c5Req : OrderRequest where
  symbol := "AAPL"
  side := OrderSide.Buy
  order_type := OrderType.Stop
  quantity := 1
  price := none
  stop_price := some 77
  time_in_force := TimeInForce.Day
  client_order_id := none
  instrument_type := InstrumentType.Stock
  option_details := none

/-- Quote fixture for C5 (present, so the spec formula has data). -/
def c5Md : MarketData where
  symbol := "AAPL"
  last_price := 80
  bid := some 79
  ask := some 81
  bid_size := some 100
  ask_size := some 100
  volume := some 1000
  timestamp := 0

/-- Risk-engine fixture for C5: default limits with max_trade_size 80. -/
def c5RE : RiskEngine :=
  RiskEngine.new { RiskLimits.default with max_trade_size := 80 } 0

/-- C5 counterexample.  For a stop order with stop price 77 the spec says
the sizing price is 77, giving trade value 77 ≤ 80 and no trade-size
violation; but `check_order_risk` computes the price as
`order.price.unwrap_or(100.0)` = 100 and rejects the order on
TradeSizeLimit. -/
theorem c5_counterexample :
    risk_sizing_price_spec c5Req (some c5Md) = 77 ∧
    risk_sizing_price_spec c5Req (some c5Md) * (c5Req.quantity : ℚ) ≤
      c5RE.limits.max_trade_size ∧
    (c5RE.check_order_risk 0 c5Req 100000 [] none).allowed = false ∧
    ((c5RE.check_order_risk 0 c5Req 100000 [] none).violations.map
      (fun v => v.violation_type)) = [RiskViolationType.TradeSizeLimit] := by
  refine ⟨rfl, ?_, ?_, ?_⟩
  · norm_num [risk_sizing_price_spec, c5Req, c5RE, RiskEngine.new,
      RiskLimits.default]
  · norm_num [RiskEngine.check_order_risk, RiskEngine.is_circuit_breaker_active,
      c5RE, c5Req, RiskEngine.new, RiskLimits.default, alGet, mkViolation]
  · norm_num [RiskEngine.check_order_risk, RiskEngine.is_circuit_breaker_active,
      c5RE, c5Req, RiskEngine.new, RiskLimits.default, alGet, mkViolation]

/-- C5 amended: outside a circuit-breaker halt, the sizing price that
`check_order_risk` uses is the request's `price` field when present and
100.0 otherwise, for every order type — the stop price and market data
never influence it.  Concretely: the result is invariant under any change
of `stop_price`, and the (80%-threshold) trade-size warning fires exactly
when `price.unwrap_or(100.0) · qty` exceeds 0.8 · max_trade_size. -/
theorem c5_sizing_price_is_price_or_100 (re : RiskEngine) (now : ℤ)
    (req : OrderRequest) (equity : ℚ)
    (positions : List (String × Position))
    (greeks : Option PortfolioGreeks)
    (hcb : re.is_circuit_breaker_active now = false) :
    (∀ sp, re.check_order_risk now { req with stop_price := sp } equity
        positions greeks =
      re.check_order_risk now req equity positions greeks) ∧
    ((re.check_order_risk now req equity positions greeks).warnings ≠ [] ↔
      (req.price.getD 100.0) * (req.quantity : ℚ) >
        re.limits.max_trade_size * 0.8) := by
  constructor
  · intro sp
    cases req
    rfl
  · simp only [RiskEngine.check_order_risk, hcb, Bool.false_eq_true,
      if_false]
    split_ifs with hw
    · simpa using hw
    · simpa using hw

/-- C5 amended witness: for the stop-order fixture the trade-size warning
fires because the sizing price is 100 (100·1 > 80·0.8), even though the
stop price is 77. -/
theorem c5_sizing_price_witness :
    (c5RE.check_order_risk 0 c5Req 100000 [] none).warnings ≠ [] :=
  (c5_sizing_price_is_price_or_100 c5RE 0 c5Req 100000 [] none rfl).2.mpr
    (by norm_num [c5Req, c5RE, RiskEngine.new, RiskLimits.default])

/-! ## Claim C6: circuit-breaker reference equity -/

/-- Trade fixture for C6: a losing trade, cumulative P&L −6000. -/
def c6Trade : Trade where
  id := "t1"
  symbol := "AAPL"
  side := OrderSide.Sell
  quantity := 100
  price := 40
  timestamp := 0
  order_id := "o1"
  commission := 1
  net_amount := 3999
  instrument_type := InstrumentType.Stock
  option_details := none
  leg_number := none
  assignment_id := none

/-- Risk-engine fixture for C6: default limits
(circuit_breaker_loss_pct = 0.10, duration 60 minutes). -/
def c6RE : RiskEngine := RiskEngine.new RiskLimits.default 0

/-- C6: the code divides the cumulative P&L by a hard-coded 100000, not by
the day-start equity supplied at construction (the constructor takes no
equity at all).  With day-start equity 50000 and cumulative P&L −6000 the
claimed condition −6000/50000 = −0.12 < −0.10 holds, so the breaker should
arm (as the spec-modelled variant does, until now + 60·60); the code
computes −6000/100000 = −0.06 and leaves the breaker inactive. -/
theorem c6_breaker_reference_equity :
    (-6000 : ℚ) / 50000 < -(0.10 : ℚ) ∧
    ((c6RE.update_after_trade 0 c6Trade (-6000)).metrics.circuit_breaker_active
      = false) ∧
    ((RiskEngine.update_after_trade_specEquity 50000 c6RE 0 c6Trade
      (-6000)).metrics.circuit_breaker_active = true) ∧
    ((RiskEngine.update_after_trade_specEquity 50000 c6RE 0 c6Trade
      (-6000)).metrics.circuit_breaker_until = some 3600) := by
  refine ⟨by norm_num, ?_, ?_, ?_⟩
  · norm_num [RiskEngine.update_after_trade,
      RiskEngine.update_consecutive_losses, RiskEngine.trigger_circuit_breaker,
      c6RE, c6Trade, RiskEngine.new, RiskLimits.default]
  · norm_num [RiskEngine.update_after_trade_specEquity,
      RiskEngine.update_consecutive_losses, RiskEngine.trigger_circuit_breaker,
      c6RE, c6Trade, RiskEngine.new, RiskLimits.default]
  · norm_num [RiskEngine.update_after_trade_specEquity,
      RiskEngine.update_consecutive_losses, RiskEngine.trigger_circuit_breaker,
      c6RE, c6Trade, RiskEngine.new, RiskLimits.default]

/-! ## Claim C7: pending-order retry ordering -/

/-- Fillable pending order fixture "a" for C7. -/
def c7O1 : Order :=
  Order.new
    { symbol := "AAPL", side := OrderSide.Buy, order_type := OrderType.Limit,
      quantity := 100, price := some 150, stop_price := none,
      time_in_force := TimeInForce.Day, client_order_id := none,
      instrument_type := InstrumentType.Stock, option_details := none }
    "a" 0

/-- Fillable pending order fixture "b" for C7. -/
def c7O2 : Order :=
  Order.new
    { symbol := "AAPL", side := OrderSide.Buy, order_type := OrderType.Limit,
      quantity := 50, price := some 140, stop_price := none,
      time_in_force := TimeInForce.Day, client_order_id := none,
      instrument_type := InstrumentType.Stock, option_details := none }
    "b" 0

/-- C7 counterexample.  The retry list is collected by iterating the
open-orders `HashMap`, whose iteration order is unspecified; an iteration
sequence that is a permutation of the insertion sequence ["a", "b"] but
enumerates "b" first yields the retry order ["b", "a"] ≠ ["a", "b"], so
FIFO insertion order is not guaranteed. -/
theorem c7_fifo_counterexample :
    ([("b", c7O2), ("a", c7O1)] : List (String × Order)).Perm
      [("a", c7O1), ("b", c7O2)] ∧
    pending_order_ids [("b", c7O2), ("a", c7O1)] "AAPL" = ["b", "a"] ∧
    pending_order_ids [("a", c7O1), ("b", c7O2)] "AAPL" = ["a", "b"] ∧
    (["b", "a"] : List String) ≠ ["a", "b"] := by
  exact ⟨List.Perm.swap ("a", c7O1) ("b", c7O2) [], by decide, by decide,
    by decide⟩

/-- C7 amended: on a quote update the orders retried are exactly the open
orders on that symbol for which can_fill() holds — the same multiset for
every possible `HashMap` iteration sequence — and the retry sequence is
the deterministic filter of that enumeration; but the sequence follows the
map's unspecified iteration order, not FIFO insertion order. -/
theorem c7_pending_retry_enumeration (enum ins : List (String × Order))
    (symbol : String) (h : enum.Perm ins) :
    (pending_order_ids enum symbol).Perm (pending_order_ids ins symbol) := by
  simp only [pending_order_ids]
  exact (h.filter _).map _

/-- C7 amended witness: the two enumerations of the counterexample retry
the same two orders, as a permutation. -/
theorem c7_pending_retry_enumeration_witness :
    (pending_order_ids [("b", c7O2), ("a", c7O1)] "AAPL").Perm
      (pending_order_ids [("a", c7O1), ("b", c7O2)] "AAPL") :=
  c7_pending_retry_enumeration _ _ "AAPL"
    (List.Perm.swap ("a", c7O1) ("b", c7O2) [])

/-! ## Claim C8: randomness source of partial fills -/

/-- C8: the partial-fill quantity is a function of draws from
`rand::thread_rng()` — ambient randomness that is not part of the broker
state and is not derived from any seed the broker owns (`PaperBroker` has
no RNG field).  Two runs with identical broker state, config and quote
tape but different ambient draws produce different fill quantities
(50 vs 100 on remaining 100 with the default config), hence different
recorded trades and journal bytes: replay output is not determined by any
broker-owned seed. -/
theorem c8_thread_rng_dependence :
    determine_fill_quantity BrokerConfig.default 100 (1/20) 50 = 50 ∧
    determine_fill_quantity BrokerConfig.default 100 (1/2) 50 = 100 ∧
    min_fill_bound BrokerConfig.default 100 ≤ 50 ∧
    (50 : ℤ) ≠ 100 := by
  refine ⟨?_, ?_, ?_, by decide⟩
  · norm_num [determine_fill_quantity, BrokerConfig.default]
  · norm_num [determine_fill_quantity, BrokerConfig.default]
  · norm_num [min_fill_bound, qTrunc, BrokerConfig.default]

/-! ## Claim C9: session classification windows -/

/-- C9 counterexample.  2024-11-29 (day after Thanksgiving) is a
non-weekend EarlyClose holiday; at 03:00 ET (10800 s, before the 04:00
window start) the claim says Closed, but `get_session_info` classifies
every EarlyClose time before 09:30 as PreMarket. -/
theorem c9_early_close_counterexample :
    (Date.isWeekend ⟨2024, 11, 29⟩) = false ∧
    ((MarketCalendar.default.holidays.find?
        (fun h => h.date == (⟨2024, 11, 29⟩ : Date))).map
      (fun h => h.holiday_type)) = some HolidayType.EarlyClose ∧
    (10800 : ℕ) < 14400 ∧
    (get_session_info MarketCalendar.default ⟨2024, 11, 29⟩ 10800).session =
      MarketSession.PreMarket ∧
    MarketSession.PreMarket ≠ MarketSession.Closed := by
  decide

/-- C9 amended: weekends are always Closed; on a non-weekend, non-holiday
day the windows are before 04:00 Closed, [04:00, 09:30) PreMarket,
[09:30, 16:00) Regular, [16:00, 20:00) AfterHours, from 20:00 Closed; on
an EarlyClose holiday every time before 09:30 is PreMarket (the 04:00
boundary does not apply), [09:30, 13:00) is Regular and from 13:00 on is
Closed. -/
theorem c9_session_windows (cal : MarketCalendar) (d : Date) (t : ℕ) :
    (d.isWeekend = true →
      (get_session_info cal d t).session = MarketSession.Closed) ∧
    (d.isWeekend = false →
      cal.holidays.find? (fun h => h.date == d) = none →
      (get_session_info cal d t).session =
        (if t < 14400 then MarketSession.Closed
         else if t < 34200 then MarketSession.PreMarket
         else if t < 57600 then MarketSession.Regular
         else if t < 72000 then MarketSession.AfterHours
         else MarketSession.Closed)) ∧
    (d.isWeekend = false →
      ∀ h, cal.holidays.find? (fun h2 => h2.date == d) = some h →
        h.holiday_type = HolidayType.EarlyClose →
        (get_session_info cal d t).session =
          (if t < 34200 then MarketSession.PreMarket
           else if t < 46800 then MarketSession.Regular
           else MarketSession.Closed)) := by
  refine ⟨?_, ?_, ?_⟩
  · intro hw
    simp [get_session_info, hw]
  · intro hw hf
    simp [get_session_info, hw, hf]
  · intro hw h hf het
    simp [get_session_info, hw, hf, het]

/-- C9 amended witness: Tuesday 2024-01-02 at 10:00 ET (36000 s) is a
Regular-session time. -/
theorem c9_session_windows_witness :
    (get_session_info MarketCalendar.default ⟨2024, 1, 2⟩ 36000).session =
      MarketSession.Regular := by
  have h := (c9_session_windows MarketCalendar.default ⟨2024, 1, 2⟩
    36000).2.1 (by decide) (by decide)
  exact h.trans (by decide)

/-! ## Claim C2: rejection atomicity of place_order -/

/-- C2: whenever `place_order` rejects a request — validation failure,
risk check not allowed, a buy whose estimated cost exceeds cash, or a sell
whose quantity exceeds the held long quantity — it returns an error and
the broker state is exactly the input state: cash, positions, open
orders, trades (hence the journal) and market data are all unchanged, and
in particular no `Order` is inserted.  `tryExec` stands for
`try_execute_order`, which the rejected paths never reach. -/
theorem c2_rejection_atomicity
    (tryExec : PaperBroker → Order →
      PaperBroker × Order × Except String TradeExecution)
    (b : PaperBroker) (request : OrderRequest) (now : ℤ) (oid : String)
    (greeks : PortfolioGreeks)
    (hrej :
      (∃ e, request.validate = .error e) ∨
      (b.risk_engine.check_order_risk now request (portfolio_equity b)
        b.positions (some greeks)).allowed = false ∨
      (request.side = OrderSide.Buy ∧
        estimate_order_cost b request > b.cash) ∨
      (request.side = OrderSide.Sell ∧
        request.quantity >
          (match alGet b.positions request.symbol with
           | some p => max p.quantity 0
           | none => 0))) :
    (place_order tryExec b request now oid greeks).1 = b ∧
    ∃ e, (place_order tryExec b request now oid greeks).2 = .error e := by
  cases hv : request.validate with
  | error e =>
      refine ⟨by simp [place_order, hv], e, by simp [place_order, hv]⟩
  | ok u =>
      have hrej' :
          (b.risk_engine.check_order_risk now request (portfolio_equity b)
            b.positions (some greeks)).allowed = false ∨
          (request.side = OrderSide.Buy ∧
            estimate_order_cost b request > b.cash) ∨
          (request.side = OrderSide.Sell ∧
            request.quantity >
              (match alGet b.positions request.symbol with
               | some p => max p.quantity 0
               | none => 0)) := by
        rcases hrej with ⟨e, he⟩ | h | h | h
        · rw [hv] at he; cases he
        · exact Or.inl h
        · exact Or.inr (Or.inl h)
        · exact Or.inr (Or.inr h)
      simp only [place_order, hv]
      split_ifs with h1 h2 h3
      · exact ⟨rfl, _, rfl⟩
      · exact ⟨rfl, _, rfl⟩
      · exact ⟨rfl, _, rfl⟩
      · exfalso
        rcases hrej' with h | h | h
        · exact h1 (by simp [h])
        · exact h2 h
        · exact h3 h

/-- Trivial execution oracle for the C2 witness (never reached). -/
def c2TryExec :
    PaperBroker → Order → PaperBroker × Order × Except String TradeExecution :=
  fun b o =>
    (b, o, .ok { order_id := o.id, fills := [], status := o.status,
                 message := "" })

/-- Broker fixture for the C2 witness. -/
def c2B : PaperBroker where
  cash := 1000
  positions := []
  orders := []
  trades := []
  market_data := []
  config := BrokerConfig.default
  day_start_equity := 1000
  risk_engine := RiskEngine.new RiskLimits.default 0

/-- Request fixture for the C2 witness: empty symbol, which `validate`
rejects. -/
def c2Req : OrderRequest where
  symbol := ""
  side := OrderSide.Buy
  order_type := OrderType.Market
  quantity := 100
  price := none
  stop_price := none
  time_in_force := TimeInForce.Day
  client_order_id := none
  instrument_type := InstrumentType.Stock
  option_details := none

/-- C2 witness: the empty-symbol request is rejected and the broker state
is returned unchanged. -/
theorem c2_rejection_atomicity_witness :
    (place_order c2TryExec c2B c2Req 0 "oid1" ⟨0, 0, 0, 0, 0⟩).1 = c2B ∧
    ∃ e, (place_order c2TryExec c2B c2Req 0 "oid1" ⟨0, 0, 0, 0, 0⟩).2 =
      .error e :=
  c2_rejection_atomicity c2TryExec c2B c2Req 0 "oid1" ⟨0, 0, 0, 0, 0⟩
    (Or.inl ⟨"Symbol cannot be empty", rfl⟩)
